import Mathlib

/-!
Shallow embedding of the Notifaya STX notification service (src/index.js).

The service keeps a registry of (address, email) registrations persisted in
a JSON file, exposes a registration endpoint, a Chainhook webhook endpoint
that dispatches email notifications for STX transfer events addressed to
registered recipients, and a status endpoint.

Requests are modelled as pure functions from the request data and the
persisted file state to an outcome; the outcome carries the HTTP status,
the response message, and the file state after the call.  The notification
sink (nodemailer `transporter.sendMail`) is modelled as an oracle
`sink : Notification → Bool` telling, for each attempted send, whether the
send succeeds or throws; the persistence layer (`saveRegistrations`) is
modelled by a flag `saveOk` telling whether `fs.writeFile` succeeds.
-/

namespace Notifaya

/-- A stored registration record, as kept in `registrations.json`:
`{address, email, createdAt}` with `updatedAt` added on a conflicting
re-registration (src/index.js lines 126-130 and 116-117). -/
structure Registration where
  address : String
  email : String
  createdAt : String
  updatedAt : Option String := none
deriving Repr, DecidableEq

/-- The persisted registry: a JSON array of registration records. -/
abbrev Registry := List Registration

/-- Possible states of the backing file `registrations.json`. -/
inductive FileState where
  /-- The file does not exist (`fs.readFile` throws). -/
  | missing : FileState
  /-- The file exists but its contents are not valid JSON (`JSON.parse` throws). -/
  | corrupt : FileState
  /-- The file holds a valid JSON array of registrations. -/
  | good (regs : Registry) : FileState
deriving Repr, DecidableEq

/-- `loadRegistrations` (src/index.js lines 59-67): read and parse the file;
any error (missing file, unparsable contents) is caught and yields `[]`. -/
def loadRegistrations : FileState → Registry
  | .missing => []
  | .corrupt => []
  | .good regs => regs

/-- Characters matched by `\s` in the JavaScript email regex
(ASCII whitespace plus no-break space; the claims only exercise ASCII). -/
def isJsSpace (c : Char) : Bool :=
  c = ' ' || c = '\t' || c = '\n' || c = '\r' || c = '\x0b' || c = '\x0c' || c = ' '

/-- Whether a character list has a `'.'` at an interior position (neither
first nor last).  A list `d` splits as `a ++ [dot] ++ b` with `a b` nonempty
exactly when some interior element of `d` is `'.'`. -/
def hasInteriorDot : List Char → Bool
  | [] => false
  | _ :: rest => (rest.dropLast).contains '.'

/-- The test of the email regex `^[^\s@]+@[^\s@]+\.[^\s@]+$`
(src/index.js line 100): no whitespace anywhere, exactly one `@`, a nonempty
local part, and a domain that splits around an interior dot. -/
def emailRegexTest (s : String) : Bool :=
  let cs := s.toList
  let localPart := cs.takeWhile (fun c => c ≠ '@')
  match cs.dropWhile (fun c => c ≠ '@') with
  | [] => false
  | _ :: domain =>
    cs.all (fun c => !(isJsSpace c)) &&
    !localPart.isEmpty &&
    !(domain.contains '@') &&
    hasInteriorDot domain

/-- `address.startsWith p` on the character-list view of strings; used so all
definitions reduce well in the kernel. -/
def strStartsWith (s p : String) : Bool :=
  p.toList.isPrefixOf s.toList

/-- Outcome of a call to `POST /api/register`: HTTP status, the JSON
message (or error) string, and the contents of `registrations.json` after
the call (unchanged whenever no successful write happened). -/
structure RegisterOutcome where
  status : Nat
  message : String
  registry : Registry
deriving Repr, DecidableEq

/-- The in-place update performed on the record found by
`registrations.find(r => r.address === address)` (src/index.js lines
111-117): the first record with the given address gets the new email and
`updatedAt := now`; all other records are untouched. -/
def updateFirst : Registry → String → String → String → Registry
  | [], _, _, _ => []
  | r :: rs, address, email, now =>
    if r.address = address then
      { r with email := email, updatedAt := some now } :: rs
    else
      r :: updateFirst rs address email now

/-- Handler of `POST /api/register` (src/index.js lines 84-141).
`address?`/`email?` are the request-body fields (`none` = absent);
`regs` is the registry loaded from the file; `now` is the timestamp
`new Date().toISOString()`; `saveOk` tells whether `saveRegistrations`
succeeds.  Returns status, message, and the file contents after the call:
a failed write leaves the file at its prior contents, and the mutated
in-memory array is request-local in the source, so the observable registry
is exactly the file. -/
def apiRegister (address? email? : Option String) (regs : Registry)
    (now : String) (saveOk : Bool) : RegisterOutcome :=
  match address?, email? with
  | some address, some email =>
    if address = "" || email = "" then
      ⟨400, "Address and email are required", regs⟩
    else if !(strStartsWith address "ST") && !(strStartsWith address "SP") then
      ⟨400, "Invalid Stacks address format", regs⟩
    else if !(emailRegexTest email) then
      ⟨400, "Invalid email format", regs⟩
    else
      match regs.find? (fun r => r.address = address) with
      | some existing =>
        if existing.email ≠ email then
          if saveOk then
            ⟨200, "Email updated successfully!", updateFirst regs address email now⟩
          else
            ⟨500, "Failed to register", regs⟩
        else
          ⟨200, "Address already registered with this email", regs⟩
      | none =>
        if saveOk then
          ⟨200, "Registration successful! You\x27ll be notified of incoming STX transfers.",
            regs ++ [{ address := address, email := email, createdAt := now }]⟩
        else
          ⟨500, "Failed to register", regs⟩
  | _, _ => ⟨400, "Address and email are required", regs⟩

/-- Payload of an STX transfer event (`event.data`, destructured at
src/index.js line 200).  `amount` is the integer microSTX amount carried by
the Chainhook payload. -/
structure STXEventData where
  sender : String
  recipient : String
  amount : Nat
deriving Repr, DecidableEq

/-- A receipt event of a transaction.  Only events whose `type` equals
`"STXTransferEvent"` are acted upon (src/index.js line 199); all others are
skipped. -/
structure ChainEvent where
  type : String
  data : STXEventData
deriving Repr, DecidableEq

/-- A transaction of a block: `transaction_identifier.hash` and the events
of `tx.metadata?.receipt?.events` (`none` when any of `metadata`, `receipt`
or `events` is absent — the optional chaining yields `undefined` and the
code substitutes `[]`). -/
structure Transaction where
  txHash : String
  events : Option (List ChainEvent)
deriving Repr, DecidableEq

/-- A block of the `apply` array; `transactions` is `none` when the field is
absent (`if (!block.transactions) continue`, src/index.js line 187). -/
structure Block where
  transactions : Option (List Transaction)
deriving Repr, DecidableEq

/-- An inbound Chainhook batch: a `rollback` marker (a list of retracted
blocks, held opaque) and an `apply` array; either field may be absent. -/
structure Payload where
  rollback : Option (List Unit)
  apply : Option (List Block)
deriving Repr, DecidableEq

/-- One attempted call of the notification sink (`transporter.sendMail`,
src/index.js lines 213-218): the target email, and the event fields
interpolated into the message (the displayed amount is computed from
`amountMicro`; its floating-point conversion is treated separately). -/
structure Notification where
  toEmail : String
  sender : String
  recipient : String
  amountMicro : Nat
  txHash : String
deriving Repr, DecidableEq

/-- Lookup in the `addressMap` built by
`new Map(registrations.map(r => [r.address, r.email]))` (src/index.js lines
180-182).  A JavaScript `Map` keeps the last value set for a key, so with
duplicate addresses the last registration wins. -/
def addressMapGet (regs : Registry) (addr : String) : Option String :=
  (regs.reverse.find? (fun r => r.address = addr)).map (fun r => r.email)

/-- The innermost loop over `events` (src/index.js lines 197-227): for each
`STXTransferEvent` whose recipient is in the address map, call the sink with
the composed notification.  The `try`/`catch` around `sendMail` records the
sink result and continues with the remaining events either way. -/
def runEvents (sink : Notification → Bool) (regs : Registry) (txHash : String) :
    List ChainEvent → List (Notification × Bool)
  | [] => []
  | e :: es =>
    if e.type = "STXTransferEvent" then
      match addressMapGet regs e.data.recipient with
      | some email =>
        let n : Notification :=
          ⟨email, e.data.sender, e.data.recipient, e.data.amount, txHash⟩
        (n, sink n) :: runEvents sink regs txHash es
      | none => runEvents sink regs txHash es
    else
      runEvents sink regs txHash es

/-- The loop over `block.transactions` (src/index.js lines 191-228). -/
def runTxs (sink : Notification → Bool) (regs : Registry) :
    List Transaction → List (Notification × Bool)
  | [] => []
  | tx :: txs =>
    runEvents sink regs tx.txHash (tx.events.getD []) ++ runTxs sink regs txs

/-- The loop over `payload.apply` (src/index.js lines 186-229); a block with
no `transactions` field contributes nothing (`continue`). -/
def runBlocks (sink : Notification → Bool) (regs : Registry) :
    List Block → List (Notification × Bool)
  | [] => []
  | b :: bs =>
    runTxs sink regs (b.transactions.getD []) ++ runBlocks sink regs bs

/-- Outcome of a call to `POST /webhook/stx-received`: the HTTP status and
the sequence of sink calls attempted, each paired with its result. -/
structure WebhookOutcome where
  status : Nat
  attempts : List (Notification × Bool)
deriving Repr, DecidableEq

/-- Handler of `POST /webhook/stx-received` (src/index.js lines 150-237).
A batch with a non-empty `rollback` array is ignored; a batch with no
`apply` entries is ignored; with no registrations the scan is skipped; and
every path acknowledges with status 200. -/
def webhookStxReceived (sink : Notification → Bool) (payload : Payload)
    (regs : Registry) : WebhookOutcome :=
  if (payload.rollback.getD []).length > 0 then
    ⟨200, []⟩
  else if (payload.apply.getD []).length = 0 then
    ⟨200, []⟩
  else if regs.length = 0 then
    ⟨200, []⟩
  else
    ⟨200, runBlocks sink regs (payload.apply.getD [])⟩

/-- Outcome of `GET /api/status` (src/index.js lines 245-251). -/
structure StatusOutcome where
  status : String
  registrations : Nat
deriving Repr, DecidableEq

/-- Handler of `GET /api/status`: reports `"running"` and the number of
loaded registrations. -/
def apiStatus (fileState : FileState) : StatusOutcome :=
  ⟨"running", (loadRegistrations fileState).length⟩

/-- Floor of the base-2 logarithm, computed by structural recursion on a
fuel argument so that it evaluates inside the kernel. -/
def log2Aux : Nat → Nat → Nat
  | 0, _ => 0
  | fuel + 1, n => if 2 ≤ n then log2Aux fuel (n / 2) + 1 else 0

/-- The value JavaScript `Number(amount)` yields for an integer microSTX
amount `n`: the nearest IEEE-754 double, i.e. `n` rounded to 53 significant
bits with round-half-to-even (exact below `2^53`; amounts of interest stay
far below the double exponent limit). -/
def roundTo53 (n : Nat) : Nat :=
  if n < 2 ^ 53 then n
  else
    let k := log2Aux n n - 52
    let q := n / 2 ^ k
    let r := n % 2 ^ k
    if 2 * r > 2 ^ k ∨ (2 * r = 2 ^ k ∧ q % 2 = 1) then
      (q + 1) * 2 ^ k
    else
      q * 2 ^ k

/-- The registry lookup performed by the registration endpoint:
`registrations.find(r => r.address === address)` (src/index.js line 111). -/
def findReg (regs : Registry) (addr : String) : Option Registration :=
  regs.find? (fun r => r.address = addr)

/-- The flat sequence of receipt events of a batch, each paired with the
hash of its transaction: blocks → transactions → events, with every missing
intermediate field contributing zero events. -/
def batchEvents (payload : Payload) : List (String × ChainEvent) :=
  (payload.apply.getD []).flatMap (fun b =>
    (b.transactions.getD []).flatMap (fun tx =>
      (tx.events.getD []).map (fun e => (tx.txHash, e))))

/-- The notification the dispatcher owes for a `(txHash, event)` pair given
the registry: present exactly when the event is an `STXTransferEvent` whose
recipient is registered, and carrying the registered email. -/
def owedNotification (regs : Registry) (pe : String × ChainEvent) :
    Option Notification :=
  if pe.2.type = "STXTransferEvent" then
    (addressMapGet regs pe.2.data.recipient).map (fun email =>
      ⟨email, pe.2.data.sender, pe.2.data.recipient, pe.2.data.amount, pe.1⟩)
  else
    none

end Notifaya

namespace Notifaya

/-! ## Webhook helper lemmas -/

theorem runEvents_map_fst (sink : Notification → Bool) (regs : Registry)
    (h : String) (es : List ChainEvent) :
    (runEvents sink regs h es).map Prod.fst =
      (es.map (fun e => (h, e))).filterMap (owedNotification regs) := by
  induction es with
  | nil => rfl
  | cons e es ih =>
    by_cases ht : e.type = "STXTransferEvent"
    · cases haddr : addressMapGet regs e.data.recipient with
      | none =>
        simp [runEvents, if_pos ht, haddr, owedNotification, ih]
      | some email =>
        simp [runEvents, if_pos ht, haddr, owedNotification, ih]
    · simp only [runEvents, if_neg ht, List.map_cons, List.filterMap_cons,
        owedNotification, ih]

theorem runTxs_map_fst (sink : Notification → Bool) (regs : Registry)
    (txs : List Transaction) :
    (runTxs sink regs txs).map Prod.fst =
      (txs.flatMap (fun tx =>
        (tx.events.getD []).map (fun e => (tx.txHash, e)))).filterMap
          (owedNotification regs) := by
  induction txs with
  | nil => rfl
  | cons tx txs ih =>
    simp only [runTxs, List.flatMap_cons, List.map_append, List.filterMap_append,
      runEvents_map_fst, ih]

theorem runBlocks_map_fst (sink : Notification → Bool) (regs : Registry)
    (bs : List Block) :
    (runBlocks sink regs bs).map Prod.fst =
      (bs.flatMap (fun b =>
        (b.transactions.getD []).flatMap (fun tx =>
          (tx.events.getD []).map (fun e => (tx.txHash, e))))).filterMap
            (owedNotification regs) := by
  induction bs with
  | nil => rfl
  | cons b bs ih =>
    simp only [runBlocks, List.flatMap_cons, List.map_append, List.filterMap_append,
      runTxs_map_fst, ih]

theorem owedNotification_nil (pe : String × ChainEvent) :
    owedNotification [] pe = none := by
  unfold owedNotification addressMapGet
  split <;> rfl

theorem webhook_status_200 (sink : Notification → Bool) (payload : Payload)
    (regs : Registry) :
    (webhookStxReceived sink payload regs).status = 200 := by
  unfold webhookStxReceived
  split
  · rfl
  split
  · rfl
  split <;> rfl

theorem webhook_attempts_fst (sink : Notification → Bool) (payload : Payload)
    (regs : Registry) (h : (payload.rollback.getD []).length = 0) :
    (webhookStxReceived sink payload regs).attempts.map Prod.fst =
      (batchEvents payload).filterMap (owedNotification regs) := by
  unfold webhookStxReceived batchEvents
  rw [if_neg (by simp [h])]
  by_cases happ : (payload.apply.getD []).length = 0
  · rw [if_pos happ]
    rw [List.length_eq_zero] at happ
    simp [happ]
  · rw [if_neg happ]
    by_cases hregs : regs.length = 0
    · rw [if_pos hregs]
      rw [List.length_eq_zero] at hregs
      subst hregs
      simp [List.filterMap_eq_nil_iff, owedNotification_nil]

    · rw [if_neg hregs]
      exact runBlocks_map_fst sink regs _

/-! ## Claim theorems: webhook dispatch -/

/-- C1: for every inbound batch (with no non-empty rollback marker, under
which the batch carries no transfer events by §4.2) and every registry, the
webhook handler calls the notification sink exactly once for each transfer
event of the batch whose recipient exactly equals a registered address, in
batch order, each time with the email registered for that recipient; in
particular two events to two distinct registered recipients yield exactly
two notifications with the correct target emails (see the witness). -/
theorem webhook_notifies_each_match (sink : Notification → Bool)
    (payload : Payload) (regs : Registry)
    (h : (payload.rollback.getD []).length = 0) :
    (webhookStxReceived sink payload regs).attempts.map Prod.fst =
      (batchEvents payload).filterMap (owedNotification regs) :=
  webhook_attempts_fst sink payload regs h

/-- Witness for C1: a batch with transfer events to the two distinct
registered recipients `ST1` and `ST2` (plus a non-transfer event and a
transfer to an unregistered address) dispatches exactly two notifications,
each to the email registered for its recipient. -/
theorem webhook_notifies_each_match_witness :
    ((Payload.mk none (some [⟨some [⟨"0xabc", some
        [⟨"STXTransferEvent", ⟨"SPx", "ST1", 5000000⟩⟩,
         ⟨"FTTransferEvent", ⟨"SPx", "ST1", 9⟩⟩,
         ⟨"STXTransferEvent", ⟨"SPy", "ST2", 7⟩⟩,
         ⟨"STXTransferEvent", ⟨"SPy", "ST9", 8⟩⟩]⟩]⟩])).rollback.getD []).length = 0 ∧
      (webhookStxReceived (fun _ => true)
        (Payload.mk none (some [⟨some [⟨"0xabc", some
          [⟨"STXTransferEvent", ⟨"SPx", "ST1", 5000000⟩⟩,
           ⟨"FTTransferEvent", ⟨"SPx", "ST1", 9⟩⟩,
           ⟨"STXTransferEvent", ⟨"SPy", "ST2", 7⟩⟩,
           ⟨"STXTransferEvent", ⟨"SPy", "ST9", 8⟩⟩]⟩]⟩]))
        [⟨"ST1", "one@ex.com", "t0", none⟩, ⟨"ST2", "two@ex.com", "t0", none⟩]
        ).attempts.map Prod.fst =
      [⟨"one@ex.com", "SPx", "ST1", 5000000, "0xabc"⟩,
       ⟨"two@ex.com", "SPy", "ST2", 7, "0xabc"⟩] :=
  ⟨rfl, (webhook_notifies_each_match (fun _ => true)
      (Payload.mk none (some [⟨some [⟨"0xabc", some
        [⟨"STXTransferEvent", ⟨"SPx", "ST1", 5000000⟩⟩,
         ⟨"FTTransferEvent", ⟨"SPx", "ST1", 9⟩⟩,
         ⟨"STXTransferEvent", ⟨"SPy", "ST2", 7⟩⟩,
         ⟨"STXTransferEvent", ⟨"SPy", "ST9", 8⟩⟩]⟩]⟩]))
      [⟨"ST1", "one@ex.com", "t0", none⟩, ⟨"ST2", "two@ex.com", "t0", none⟩]
      (by decide)).trans (by decide)⟩

/-- C4: a batch whose rollback marker is non-empty is ignored: the handler
acknowledges with 200 and attempts zero sink calls, whatever `apply` data
the same batch carries and whatever the registry contains. -/
theorem webhook_ignores_rollback (sink : Notification → Bool)
    (payload : Payload) (regs : Registry)
    (h : 0 < (payload.rollback.getD []).length) :
    webhookStxReceived sink payload regs = ⟨200, []⟩ := by
  unfold webhookStxReceived
  rw [if_pos h]

/-- Witness for C4: a batch with a non-empty rollback marker and `apply`
data holding a transfer to a registered recipient still dispatches
nothing. -/
theorem webhook_ignores_rollback_witness :
    0 < ((Payload.mk (some [()]) (some [⟨some [⟨"0xdef", some
        [⟨"STXTransferEvent", ⟨"SPx", "ST1", 42⟩⟩]⟩]⟩])).rollback.getD []).length ∧
      webhookStxReceived (fun _ => true)
        (Payload.mk (some [()]) (some [⟨some [⟨"0xdef", some
          [⟨"STXTransferEvent", ⟨"SPx", "ST1", 42⟩⟩]⟩]⟩]))
        [⟨"ST1", "one@ex.com", "t0", none⟩] = ⟨200, []⟩ :=
  ⟨by decide, webhook_ignores_rollback (fun _ => true) _ _ (by decide)⟩

/-- C5: the webhook endpoint answers 200 on every input, and the sequence
of sink calls attempted does not depend on which sink calls fail: a sink
failure on one event is absorbed by the per-event `try`/`catch` and never
suppresses the attempt for any later matching event of the batch. -/
theorem webhook_ack_and_failure_isolation (sink sink' : Notification → Bool)
    (payload : Payload) (regs : Registry) :
    (webhookStxReceived sink payload regs).status = 200 ∧
      (webhookStxReceived sink payload regs).attempts.map Prod.fst =
        (webhookStxReceived sink' payload regs).attempts.map Prod.fst := by
  refine ⟨webhook_status_200 sink payload regs, ?_⟩
  by_cases h : (payload.rollback.getD []).length = 0
  · rw [webhook_attempts_fst sink payload regs h,
      webhook_attempts_fst sink' payload regs h]
  · have hpos : 0 < (payload.rollback.getD []).length := Nat.pos_of_ne_zero h
    unfold webhookStxReceived
    rw [if_pos hpos, if_pos hpos]

/-! ## Registry helper lemmas -/

theorem updateFirst_length (regs : Registry) (a e t : String) :
    (updateFirst regs a e t).length = regs.length := by
  induction regs with
  | nil => rfl
  | cons r rs ih =>
    unfold updateFirst
    by_cases h : r.address = a
    · rw [if_pos h]
      rfl
    · rw [if_neg h]
      simp [ih]

theorem updateFirst_map_address (regs : Registry) (a e t : String) :
    (updateFirst regs a e t).map (fun r => r.address) =
      regs.map (fun r => r.address) := by
  induction regs with
  | nil => rfl
  | cons r rs ih =>
    unfold updateFirst
    by_cases h : r.address = a
    · rw [if_pos h]
      rfl
    · rw [if_neg h]
      simp [ih]

theorem updateFirst_map_createdAt (regs : Registry) (a e t : String) :
    (updateFirst regs a e t).map (fun r => r.createdAt) =
      regs.map (fun r => r.createdAt) := by
  induction regs with
  | nil => rfl
  | cons r rs ih =>
    unfold updateFirst
    by_cases h : r.address = a
    · rw [if_pos h]
      rfl
    · rw [if_neg h]
      simp [ih]

theorem find?_first_match (regs : Registry) (a : String)
    (hnodup : (regs.map (fun r => r.address)).Nodup)
    (r : Registration) (hr : r ∈ regs) (hra : r.address = a) :
    regs.find? (fun x => x.address = a) = some r := by
  induction regs with
  | nil => cases hr
  | cons x xs ih =>
    rw [List.map_cons, List.nodup_cons] at hnodup
    rcases List.mem_cons.mp hr with rfl | hmem
    · exact List.find?_cons_of_pos _ (by simp [hra])
    · by_cases hx : x.address = a
      · exfalso
        apply hnodup.1
        rw [hx, ← hra]
        exact List.mem_map_of_mem (fun r => r.address) hmem
      · rw [List.find?_cons_of_neg _ (by simp [hx])]
        exact ih hnodup.2 hmem

theorem find?_updateFirst (regs : Registry) (a e t : String)
    (r : Registration) (h : regs.find? (fun x => x.address = a) = some r) :
    (updateFirst regs a e t).find? (fun x => x.address = a) =
      some { r with email := e, updatedAt := some t } := by
  induction regs with
  | nil => simp at h
  | cons x xs ih =>
    by_cases hx : x.address = a
    · rw [List.find?_cons_of_pos _ (by simp [hx])] at h
      injection h with h
      subst h
      unfold updateFirst
      rw [if_pos hx]
      exact List.find?_cons_of_pos _ (by simp [hx])
    · rw [List.find?_cons_of_neg _ (by simp [hx])] at h
      unfold updateFirst
      rw [if_neg hx, List.find?_cons_of_neg _ (by simp [hx])]
      exact ih h

theorem updateFirst_getElem?_frame (regs : Registry) (a e t : String) (j : Nat)
    (x : Registration) (hj : regs[j]? = some x) (hx : x.address ≠ a) :
    (updateFirst regs a e t)[j]? = some x := by
  induction regs generalizing j with
  | nil => simp at hj
  | cons r rs ih =>
    cases j with
    | zero =>
      rw [List.getElem?_cons_zero] at hj
      injection hj with hj
      subst hj
      unfold updateFirst
      rw [if_neg hx]
      exact List.getElem?_cons_zero
    | succ j =>
      rw [List.getElem?_cons_succ] at hj
      unfold updateFirst
      by_cases h : r.address = a
      · rw [if_pos h, List.getElem?_cons_succ]
        exact hj
      · rw [if_neg h, List.getElem?_cons_succ]
        exact ih j hj

theorem strStartsWith_ne_empty (s : String)
    (h : strStartsWith s "ST" = true ∨ strStartsWith s "SP" = true) :
    s ≠ "" := by
  rintro rfl
  rcases h with h | h <;> exact absurd h (by decide)

theorem emailRegexTest_ne_empty (e : String) (h : emailRegexTest e = true) :
    e ≠ "" := by
  rintro rfl
  exact absurd h (by decide)

/-- Reduction of the registration handler to the update branch: valid
inputs, address found, stored email different. -/
theorem apiRegister_update_branch (regs : Registry) (addr email now : String)
    (saveOk : Bool)
    (h3 : strStartsWith addr "ST" = true ∨ strStartsWith addr "SP" = true)
    (h4 : emailRegexTest email = true)
    (r : Registration)
    (hfind : regs.find? (fun x => x.address = addr) = some r)
    (hne : r.email ≠ email) :
    apiRegister (some addr) (some email) regs now saveOk =
      if saveOk then
        ⟨200, "Email updated successfully!", updateFirst regs addr email now⟩
      else
        ⟨500, "Failed to register", regs⟩ := by
  have h1 : addr ≠ "" := strStartsWith_ne_empty addr h3
  have h2 : email ≠ "" := emailRegexTest_ne_empty email h4
  simp only [apiRegister]
  rw [if_neg (by simp [h1, h2]),
    if_neg (by rcases h3 with h | h <;> simp [h]),
    if_neg (by simp [h4])]
  simp only [hfind]
  rw [if_pos hne]

/-- Reduction of the registration handler to the no-change branch: valid
inputs, address found, stored email identical. -/
theorem apiRegister_nochange_branch (regs : Registry) (addr email now : String)
    (saveOk : Bool)
    (h3 : strStartsWith addr "ST" = true ∨ strStartsWith addr "SP" = true)
    (h4 : emailRegexTest email = true)
    (r : Registration)
    (hfind : regs.find? (fun x => x.address = addr) = some r)
    (heq : r.email = email) :
    apiRegister (some addr) (some email) regs now saveOk =
      ⟨200, "Address already registered with this email", regs⟩ := by
  have h1 : addr ≠ "" := strStartsWith_ne_empty addr h3
  have h2 : email ≠ "" := emailRegexTest_ne_empty email h4
  simp only [apiRegister]
  rw [if_neg (by simp [h1, h2]),
    if_neg (by rcases h3 with h | h <;> simp [h]),
    if_neg (by simp [h4])]
  simp only [hfind]
  rw [if_neg (by simp [heq])]

/-- Reduction of the registration handler to the insert branch: valid
inputs, address not yet registered. -/
theorem apiRegister_insert_branch (regs : Registry) (addr email now : String)
    (saveOk : Bool)
    (h3 : strStartsWith addr "ST" = true ∨ strStartsWith addr "SP" = true)
    (h4 : emailRegexTest email = true)
    (hfind : regs.find? (fun x => x.address = addr) = none) :
    apiRegister (some addr) (some email) regs now saveOk =
      if saveOk then
        ⟨200, "Registration successful! You\x27ll be notified of incoming STX transfers.",
          regs ++ [{ address := addr, email := email, createdAt := now }]⟩
      else
        ⟨500, "Failed to register", regs⟩ := by
  have h1 : addr ≠ "" := strStartsWith_ne_empty addr h3
  have h2 : email ≠ "" := emailRegexTest_ne_empty email h4
  simp only [apiRegister]
  rw [if_neg (by simp [h1, h2]),
    if_neg (by rcases h3 with h | h <;> simp [h]),
    if_neg (by simp [h4])]
  simp only [hfind]

/-- Every branch of the registration handler leaves the persisted registry
unchanged when the write fails. -/
theorem apiRegister_registry_save_fail (address? email? : Option String)
    (regs : Registry) (now : String) :
    (apiRegister address? email? regs now false).registry = regs := by
  unfold apiRegister
  cases address? <;> cases email? <;> try rfl
  (repeat' split) <;>
    first
      | rfl
      | exact absurd ‹false = true› (by decide)

/-- Either a registration call does not change the persisted registry, or
the same call with a failing write reports the 500 storage error. -/
theorem apiRegister_mutation_or_error (address? email? : Option String)
    (regs : Registry) (now : String) :
    (apiRegister address? email? regs now true).registry = regs ∨
      apiRegister address? email? regs now false =
        ⟨500, "Failed to register", regs⟩ := by
  unfold apiRegister
  cases address? <;> cases email? <;> try exact Or.inl rfl
  (repeat' split) <;>
    first
      | exact Or.inl rfl
      | exact Or.inr rfl
      | exact absurd ‹false = true› (by decide)

/-! ## Claim theorems: registration -/

/-- C2: on a registry with unique addresses, re-registering an existing
address with a different valid email updates in place: status 200, the
stored record for that address now carries the new email with `updatedAt`
set (and its original `createdAt`), the registry size is unchanged, and
address uniqueness is preserved. -/
theorem register_update_in_place (regs : Registry) (addr email now : String)
    (hnodup : (regs.map (fun r => r.address)).Nodup)
    (haddr : strStartsWith addr "ST" = true ∨ strStartsWith addr "SP" = true)
    (hemail : emailRegexTest email = true)
    (r : Registration) (hr : r ∈ regs) (hra : r.address = addr)
    (hre : r.email ≠ email) :
    (apiRegister (some addr) (some email) regs now true).status = 200 ∧
      (apiRegister (some addr) (some email) regs now true).registry.length =
        regs.length ∧
      findReg (apiRegister (some addr) (some email) regs now true).registry addr =
        some { r with email := email, updatedAt := some now } ∧
      ((apiRegister (some addr) (some email) regs now true).registry.map
        (fun x => x.address)).Nodup := by
  have hfind := find?_first_match regs addr hnodup r hr hra
  rw [apiRegister_update_branch regs addr email now true haddr hemail r hfind hre,
    if_pos rfl]
  refine ⟨rfl, updateFirst_length regs addr email now, ?_, ?_⟩
  · exact find?_updateFirst regs addr email now r hfind
  · rw [show (RegisterOutcome.mk 200 "Email updated successfully!"
      (updateFirst regs addr email now)).registry = updateFirst regs addr email now
      from rfl]
    rw [updateFirst_map_address]
    exact hnodup

/-- Witness for C2: re-registering `ST1` (stored with `old@ex.com`) under
`new@ex.com` updates the stored record in place and keeps the second
registration untouched. -/
theorem register_update_in_place_witness :
    (Registration.mk "ST1" "old@ex.com" "t0" none).email ≠ "new@ex.com" ∧
      ((apiRegister (some "ST1") (some "new@ex.com")
          [⟨"ST1", "old@ex.com", "t0", none⟩, ⟨"ST2", "two@ex.com", "t0", none⟩]
          "t1" true).status = 200 ∧
        (apiRegister (some "ST1") (some "new@ex.com")
          [⟨"ST1", "old@ex.com", "t0", none⟩, ⟨"ST2", "two@ex.com", "t0", none⟩]
          "t1" true).registry.length =
          [⟨"ST1", "old@ex.com", "t0", none⟩,
            (⟨"ST2", "two@ex.com", "t0", none⟩ : Registration)].length ∧
        findReg (apiRegister (some "ST1") (some "new@ex.com")
          [⟨"ST1", "old@ex.com", "t0", none⟩, ⟨"ST2", "two@ex.com", "t0", none⟩]
          "t1" true).registry "ST1" =
          some { Registration.mk "ST1" "old@ex.com" "t0" none with
            email := "new@ex.com", updatedAt := some "t1" } ∧
        ((apiRegister (some "ST1") (some "new@ex.com")
          [⟨"ST1", "old@ex.com", "t0", none⟩, ⟨"ST2", "two@ex.com", "t0", none⟩]
          "t1" true).registry.map (fun x => x.address)).Nodup) :=
  ⟨by decide,
    register_update_in_place
      [⟨"ST1", "old@ex.com", "t0", none⟩, ⟨"ST2", "two@ex.com", "t0", none⟩]
      "ST1" "new@ex.com" "t1" (by decide) (Or.inl (by decide)) (by decide)
      (Registration.mk "ST1" "old@ex.com" "t0" none) (by decide) rfl (by decide)⟩

/-- C3: registering an address/email pair identical to a stored one is a
no-op for every write-success value (no save is even attempted): the call
reports the distinct no-change message and returns the registry exactly as
before. -/
theorem register_idempotent_same_email (regs : Registry)
    (addr email now : String) (saveOk : Bool)
    (hnodup : (regs.map (fun r => r.address)).Nodup)
    (haddr : strStartsWith addr "ST" = true ∨ strStartsWith addr "SP" = true)
    (hemail : emailRegexTest email = true)
    (r : Registration) (hr : r ∈ regs) (hra : r.address = addr)
    (hre : r.email = email) :
    apiRegister (some addr) (some email) regs now saveOk =
      ⟨200, "Address already registered with this email", regs⟩ :=
  apiRegister_nochange_branch regs addr email now saveOk haddr hemail r
    (find?_first_match regs addr hnodup r hr hra) hre

/-- Witness for C3: registering the stored pair (`ST1`, `a@b.co`) again
leaves the one-entry registry untouched and reports the no-change message,
even when the persistence layer would fail. -/
theorem register_idempotent_same_email_witness :
    (Registration.mk "ST1" "a@b.co" "t0" none).email = "a@b.co" ∧
      apiRegister (some "ST1") (some "a@b.co")
          [⟨"ST1", "a@b.co", "t0", none⟩] "t1" false =
        ⟨200, "Address already registered with this email",
          [⟨"ST1", "a@b.co", "t0", none⟩]⟩ :=
  ⟨rfl,
    register_idempotent_same_email [⟨"ST1", "a@b.co", "t0", none⟩]
      "ST1" "a@b.co" "t1" false (by decide) (Or.inl (by decide)) (by decide)
      (Registration.mk "ST1" "a@b.co" "t0" none) (by decide) rfl rfl⟩

/-- C7: a registration whose address starts with neither `ST` (testnet) nor
`SP` (mainnet) fails with status 400 and leaves the registry unmodified,
whatever the email field holds and whether or not the write would
succeed. -/
theorem register_rejects_bad_address_format (addr : String) (email? : Option String)
    (regs : Registry) (now : String) (saveOk : Bool)
    (h1 : strStartsWith addr "ST" = false)
    (h2 : strStartsWith addr "SP" = false) :
    (apiRegister (some addr) email? regs now saveOk).status = 400 ∧
      (apiRegister (some addr) email? regs now saveOk).registry = regs := by
  cases email? with
  | none => exact ⟨rfl, rfl⟩
  | some email =>
    simp only [apiRegister]
    by_cases ha : addr = ""
    · rw [if_pos (by simp [ha])]
      exact ⟨rfl, rfl⟩
    · by_cases hb : email = ""
      · rw [if_pos (by simp [hb])]
        exact ⟨rfl, rfl⟩
      · rw [if_neg (by simp [ha, hb]), if_pos (by simp [h1, h2])]
        exact ⟨rfl, rfl⟩

/-- Witness for C7: an address with the unrecognized prefix `SM` is
rejected with 400 and the registry is unchanged. -/
theorem register_rejects_bad_address_format_witness :
    strStartsWith "SM2XYZ" "ST" = false ∧ strStartsWith "SM2XYZ" "SP" = false ∧
      (apiRegister (some "SM2XYZ") (some "a@b.co")
          [⟨"ST1", "a@b.co", "t0", none⟩] "t1" true).status = 400 ∧
      (apiRegister (some "SM2XYZ") (some "a@b.co")
          [⟨"ST1", "a@b.co", "t0", none⟩] "t1" true).registry =
        [⟨"ST1", "a@b.co", "t0", none⟩] :=
  ⟨by decide, by decide,
    (register_rejects_bad_address_format "SM2XYZ" (some "a@b.co")
      [⟨"ST1", "a@b.co", "t0", none⟩] "t1" true (by decide) (by decide)).1,
    (register_rejects_bad_address_format "SM2XYZ" (some "a@b.co")
      [⟨"ST1", "a@b.co", "t0", none⟩] "t1" true (by decide) (by decide)).2⟩

/-- C8: with a failing write the persisted registry is always left at its
prior contents, and every call that would have mutated the registry (had
the write succeeded) reports the 500 storage error instead of success — so
success is only ever reported after the mutated registry was persisted, and
subsequent calls observe exactly the last successfully persisted state. -/
theorem register_persists_before_success (address? email? : Option String)
    (regs : Registry) (now : String) :
    (apiRegister address? email? regs now false).registry = regs ∧
      ((apiRegister address? email? regs now true).registry ≠ regs →
        apiRegister address? email? regs now false =
          ⟨500, "Failed to register", regs⟩) :=
  ⟨apiRegister_registry_save_fail address? email? regs now,
    fun h => (apiRegister_mutation_or_error address? email? regs now).resolve_left h⟩

/-- Witness for C8: a new registration whose write fails reports the 500
storage error and leaves the (empty) registry file unchanged. -/
theorem register_persists_before_success_witness :
    (apiRegister (some "ST1") (some "a@b.co") [] "t0" true).registry ≠ [] ∧
      apiRegister (some "ST1") (some "a@b.co") [] "t0" false =
        ⟨500, "Failed to register", []⟩ :=
  ⟨by decide,
    (register_persists_before_success (some "ST1") (some "a@b.co") [] "t0").2
      (by decide)⟩

/-- C9: a missing or unparsable registry file loads as the empty registry
rather than an error; consequently the status endpoint reports zero
registrations over a corrupt file, and the next successful registration
rewrites the file with exactly the one new entry. -/
theorem load_error_yields_empty (addr email now : String)
    (haddr : strStartsWith addr "ST" = true ∨ strStartsWith addr "SP" = true)
    (hemail : emailRegexTest email = true) :
    loadRegistrations .missing = [] ∧
      loadRegistrations .corrupt = [] ∧
      apiStatus .corrupt = ⟨"running", 0⟩ ∧
      (apiRegister (some addr) (some email) (loadRegistrations .corrupt)
          now true).registry =
        [{ address := addr, email := email, createdAt := now }] := by
  refine ⟨rfl, rfl, rfl, ?_⟩
  rw [show loadRegistrations .corrupt = [] from rfl,
    apiRegister_insert_branch [] addr email now true haddr hemail rfl, if_pos rfl]
  rfl

/-- Witness for C9: registering (`ST1`, `a@b.co`) over a corrupt file
persists a registry holding exactly that entry. -/
theorem load_error_yields_empty_witness :
    emailRegexTest "a@b.co" = true ∧
      loadRegistrations .corrupt = [] ∧
      apiStatus .corrupt = ⟨"running", 0⟩ ∧
      (apiRegister (some "ST1") (some "a@b.co") (loadRegistrations .corrupt)
          "t0" true).registry =
        [{ address := "ST1", email := "a@b.co", createdAt := "t0" }] :=
  ⟨by decide,
    (load_error_yields_empty "ST1" "a@b.co" "t0" (Or.inl (by decide)) (by decide)).2.1,
    (load_error_yields_empty "ST1" "a@b.co" "t0" (Or.inl (by decide)) (by decide)).2.2.1,
    (load_error_yields_empty "ST1" "a@b.co" "t0" (Or.inl (by decide)) (by decide)).2.2.2⟩

/-- C10: a re-registration of an existing address with a new email only
touches the matched record's `email` and `updatedAt`: every record keeps
its position, address and `createdAt`, and every record whose address
differs from the registered one is entirely unchanged. -/
theorem register_update_frame (regs : Registry) (addr email now : String)
    (hnodup : (regs.map (fun r => r.address)).Nodup)
    (haddr : strStartsWith addr "ST" = true ∨ strStartsWith addr "SP" = true)
    (hemail : emailRegexTest email = true)
    (r : Registration) (hr : r ∈ regs) (hra : r.address = addr)
    (hre : r.email ≠ email) :
    (apiRegister (some addr) (some email) regs now true).registry.map
        (fun x => x.address) = regs.map (fun x => x.address) ∧
      (apiRegister (some addr) (some email) regs now true).registry.map
        (fun x => x.createdAt) = regs.map (fun x => x.createdAt) ∧
      ∀ (j : Nat) (x : Registration), regs[j]? = some x → x.address ≠ addr →
        (apiRegister (some addr) (some email) regs now true).registry[j]? =
          some x := by
  have hfind := find?_first_match regs addr hnodup r hr hra
  rw [apiRegister_update_branch regs addr email now true haddr hemail r hfind hre,
    if_pos rfl]
  refine ⟨updateFirst_map_address regs addr email now,
    updateFirst_map_createdAt regs addr email now, ?_⟩
  intro j x hj hx
  exact updateFirst_getElem?_frame regs addr email now j x hj hx

/-- Witness for C10: updating `ST1`'s email leaves the `ST2` record (at
index 1) exactly as stored. -/
theorem register_update_frame_witness :
    ([⟨"ST1", "old@ex.com", "t0", none⟩,
        (⟨"ST2", "two@ex.com", "t0", none⟩ : Registration)][1]? =
      some ⟨"ST2", "two@ex.com", "t0", none⟩) ∧
      (Registration.mk "ST2" "two@ex.com" "t0" none).address ≠ "ST1" ∧
      (apiRegister (some "ST1") (some "new@ex.com")
          [⟨"ST1", "old@ex.com", "t0", none⟩, ⟨"ST2", "two@ex.com", "t0", none⟩]
          "t1" true).registry[1]? = some ⟨"ST2", "two@ex.com", "t0", none⟩ :=
  ⟨rfl, by decide,
    (register_update_frame
      [⟨"ST1", "old@ex.com", "t0", none⟩, ⟨"ST2", "two@ex.com", "t0", none⟩]
      "ST1" "new@ex.com" "t1" (by decide) (Or.inl (by decide)) (by decide)
      (Registration.mk "ST1" "old@ex.com" "t0" none) (by decide) rfl
      (by decide)).2.2 1 ⟨"ST2", "two@ex.com", "t0", none⟩ rfl (by decide)⟩

/-! ## Claim theorem: amount conversion -/

/-- C6 (refuting the exactness claim): the code converts with
`Number(amount) / 1_000_000`, i.e. IEEE-754 double arithmetic.  Parsing
already rounds the integer amount to 53 significant bits, so the two
distinct microSTX amounts `2^53` and `2^53 + 1` reach the division as the
same value, while their exact quotients by 1,000,000 differ: the displayed
amount cannot equal the exact quotient for both, so precision is lost on
large transfers. -/
theorem amount_conversion_precision_loss :
    roundTo53 9007199254740993 = roundTo53 9007199254740992 ∧
      (9007199254740993 : ℚ) / 1000000 ≠ (9007199254740992 : ℚ) / 1000000 := by
  constructor
  · decide
  · norm_num

end Notifaya
